import Mathlib

/-!
Shallow embedding of `src/offboard_node.cpp` (ROS/MAVROS offboard figure-8
mission node) and verification of its specification claims.

The main control loop (source lines 86-177) is modelled as a step function
on an explicit loop state.  Each iteration reads a telemetry snapshot
(`current_state`, i.e. connected/armed/mode), the current wall-clock time
(`ros::Time::now()`, one value per iteration) and the outcomes the external
services would return if called.  It produces the next loop state together
with the externally observable outputs of the iteration: which service
requests were issued and whether a setpoint was published.
-/

namespace OffboardNode

noncomputable section

/-- Mission phase constants, source lines 18-21 (`#define PHASE_TAKEOFF 1` ...). -/
def PHASE_TAKEOFF : ℕ := 1

/-- `#define PHASE_FIGURE8 2`, source line 19. -/
def PHASE_FIGURE8 : ℕ := 2

/-- `#define PHASE_LAND 3`, source line 20. -/
def PHASE_LAND : ℕ := 3

/-- `#define PHASE_COMPLETE 4`, source line 21. -/
def PHASE_COMPLETE : ℕ := 4

/-- `#define TAKEOFF_Z 6.0`, source line 13. -/
def TAKEOFF_Z : ℝ := 6.0

/-- `#define RADIUS 15.0`, source line 14. -/
def RADIUS : ℝ := 15.0

/-- `#define ANGULAR_SPEED 0.3`, source line 15. -/
def ANGULAR_SPEED : ℝ := 0.3

/-- `const double required_figure8_duration = (2.0 * M_PI) / ANGULAR_SPEED;`,
source line 82. -/
def required_figure8_duration : ℝ := (2.0 * Real.pi) / ANGULAR_SPEED

/-- The fields of `mavros_msgs::State` that the node reads
(`connected`, `armed`, `mode`). -/
structure VehicleState where
  connected : Bool
  armed : Bool
  mode : String

/-- Target position, the `pose.pose.position` fields of the
`geometry_msgs::PoseStamped pose` variable (source line 61). -/
structure Pose where
  x : ℝ
  y : ℝ
  z : ℝ

/-- The mutable state of the main control loop: the target `pose`
(source line 61), `current_phase` (line 28), `phase_start_time` (line 27)
and `last_request` (line 77).  Times are wall-clock seconds as real
numbers (`ros::Time` / `toSec`). -/
structure LoopState where
  pose : Pose
  current_phase : ℕ
  phase_start_time : ℝ
  last_request : ℝ

/-- The environment data one loop iteration consumes: the latest telemetry
snapshot `st` (the `current_state` global filled in by `state_cb`), the
current time `now` (`ros::Time::now()`), and the outcome each external
service call would report if issued this iteration:
`offboard_ok` stands for `set_mode_client.call(offboard_set_mode) &&
offboard_set_mode.response.mode_sent` (line 89), `arm_ok` for
`arming_client.call(arm_cmd) && arm_cmd.response.success` (line 96) and
`land_ok` for the AUTO.LAND call outcome (line 157, ignored by the node
except for logging). -/
structure Input where
  st : VehicleState
  now : ℝ
  offboard_ok : Bool
  arm_ok : Bool
  land_ok : Bool

/-- The externally observable outputs of one loop iteration:
whether the OFFBOARD set-mode request was issued (line 89), whether the
arming request was issued (line 96), whether the AUTO.LAND set-mode request
was issued (line 157), and whether the setpoint pose was published
(lines 170-173). -/
structure Output where
  offboard_req : Bool
  arm_req : Bool
  land_req : Bool
  published : Bool

/-- Command arbitration, source lines 88-101: if `mode != "OFFBOARD"` and
more than 5 s have elapsed since `last_request`, issue the OFFBOARD
set-mode request (a success additionally resets `phase_start_time`, line 91);
otherwise, if not armed and more than 5 s have elapsed, issue the arming
request.  `last_request` is updated when a request is issued, whether or not
it succeeds (lines 93 and 99).  Returns the updated state together with the
(offboard-requested, arm-requested) flags. -/
def cmdStep (s : LoopState) (inp : Input) : LoopState × Bool × Bool :=
  if inp.st.mode ≠ "OFFBOARD" ∧ inp.now - s.last_request > 5.0 then
    ({ s with
        phase_start_time := if inp.offboard_ok then inp.now else s.phase_start_time,
        last_request := inp.now },
     true, false)
  else if inp.st.armed = false ∧ inp.now - s.last_request > 5.0 then
    ({ s with last_request := inp.now }, false, true)
  else
    (s, false, false)

/-- Mission-phase logic, source lines 104-167: runs only when
`current_state.armed && current_state.mode == "OFFBOARD"`, with
`time_in_phase = (ros::Time::now() - phase_start_time).toSec()`.
Takeoff sets the target to (0,0,TAKEOFF_Z) and after 15 s moves to Figure8,
resetting the phase timer; Figure8 sets the Lemniscate-of-Gerono target and,
once `time_in_phase >= required_figure8_duration`, resets the target x,y
to (0,0) and moves to Land; Land issues the one-shot AUTO.LAND request and
unconditionally moves to Complete.  Returns the updated state together with
the AUTO.LAND-requested flag. -/
def phaseStep (s : LoopState) (inp : Input) : LoopState × Bool :=
  if inp.st.armed = true ∧ inp.st.mode = "OFFBOARD" then
    if s.current_phase = PHASE_TAKEOFF then
      if inp.now - s.phase_start_time ≥ 15.0 then
        ({ s with pose := ⟨0.0, 0.0, TAKEOFF_Z⟩,
                  current_phase := PHASE_FIGURE8,
                  phase_start_time := inp.now }, false)
      else
        ({ s with pose := ⟨0.0, 0.0, TAKEOFF_Z⟩ }, false)
    else if s.current_phase = PHASE_FIGURE8 then
      if inp.now - s.phase_start_time ≥ required_figure8_duration then
        ({ s with pose := ⟨0.0, 0.0, TAKEOFF_Z⟩,
                  current_phase := PHASE_LAND }, false)
      else
        ({ s with pose :=
            ⟨RADIUS * Real.sin (ANGULAR_SPEED * (inp.now - s.phase_start_time)),
             RADIUS * Real.sin (ANGULAR_SPEED * (inp.now - s.phase_start_time)) *
               Real.cos (ANGULAR_SPEED * (inp.now - s.phase_start_time)),
             TAKEOFF_Z⟩ }, false)
    else if s.current_phase = PHASE_LAND then
      ({ s with current_phase := PHASE_COMPLETE }, true)
    else
      (s, false)
  else
    (s, false)

/-- One full iteration of the main control loop (source lines 86-177):
command arbitration, then phase logic, then the publish gate
`if (current_phase < PHASE_LAND) local_pos_pub.publish(pose);`
(lines 170-173), which reads the phase value already updated by the
phase logic of the same iteration. -/
def step (s : LoopState) (inp : Input) : LoopState × Output :=
  ((phaseStep (cmdStep s inp).1 inp).1,
   { offboard_req := (cmdStep s inp).2.1,
     arm_req := (cmdStep s inp).2.2,
     land_req := (phaseStep (cmdStep s inp).1 inp).2,
     published := decide ((phaseStep (cmdStep s inp).1 inp).1.current_phase < PHASE_LAND) })

/-- An iteration issues a throttled command request (OFFBOARD mode change
or arm) exactly when one of these output flags is set. -/
def cmdReq (o : Output) : Prop :=
  o.offboard_req = true ∨ o.arm_req = true

/-- The loop state at the start of iteration `n`, for a run that starts in
state `s0` and feeds the loop the inputs `ins 0, ins 1, ...`. -/
def stateAt (s0 : LoopState) (ins : ℕ → Input) : ℕ → LoopState
  | 0 => s0
  | n + 1 => (step (stateAt s0 ins n) (ins n)).1

/-- The observable output of iteration `n` of the run. -/
def outAt (s0 : LoopState) (ins : ℕ → Input) (n : ℕ) : Output :=
  (step (stateAt s0 ins n) (ins n)).2

/-- The loop state right before the first iteration of the main loop,
source lines 61-79: target pose (0,0,TAKEOFF_Z), phase `PHASE_TAKEOFF`,
and both `phase_start_time` and `last_request` set to the current time
`t0`. -/
def initState (t0 : ℝ) : LoopState :=
  { pose := ⟨0, 0, TAKEOFF_Z⟩, current_phase := PHASE_TAKEOFF,
    phase_start_time := t0, last_request := t0 }

/-- Two iteration inputs that agree on everything the loop body can
observe except the `connected` flag. -/
def agreeNonConnected (i j : Input) : Prop :=
  i.st.armed = j.st.armed ∧ i.st.mode = j.st.mode ∧ i.now = j.now ∧
  i.offboard_ok = j.offboard_ok ∧ i.arm_ok = j.arm_ok ∧ i.land_ok = j.land_ok

end

/-! ## Basic frame lemmas about the two halves of the loop body -/

lemma cmdStep_pose (s : LoopState) (inp : Input) :
    ((cmdStep s inp).1).pose = s.pose := by
  unfold cmdStep; split_ifs <;> rfl

lemma cmdStep_phase (s : LoopState) (inp : Input) :
    ((cmdStep s inp).1).current_phase = s.current_phase := by
  unfold cmdStep; split_ifs <;> rfl

lemma cmdStep_inactive (s : LoopState) (inp : Input)
    (hm : inp.st.mode = "OFFBOARD") (ha : inp.st.armed = true) :
    cmdStep s inp = (s, false, false) := by
  simp [cmdStep, hm, ha]

lemma phaseStep_lr (s : LoopState) (inp : Input) :
    ((phaseStep s inp).1).last_request = s.last_request := by
  unfold phaseStep; split_ifs <;> rfl

lemma phaseStep_inactive (s : LoopState) (inp : Input)
    (h : ¬(inp.st.armed = true ∧ inp.st.mode = "OFFBOARD")) :
    phaseStep s inp = (s, false) := by
  unfold phaseStep; rw [if_neg h]

lemma phaseStep_phase_cases (s : LoopState) (inp : Input) :
    ((phaseStep s inp).1).current_phase = s.current_phase ∨
    ((phaseStep s inp).1).current_phase = s.current_phase + 1 := by
  unfold phaseStep
  split_ifs <;>
    simp_all [PHASE_TAKEOFF, PHASE_FIGURE8, PHASE_LAND, PHASE_COMPLETE]

lemma step_phase_cases (s : LoopState) (inp : Input) :
    ((step s inp).1).current_phase = s.current_phase ∨
    ((step s inp).1).current_phase = s.current_phase + 1 := by
  have h := phaseStep_phase_cases (cmdStep s inp).1 inp
  rw [cmdStep_phase] at h
  exact h

lemma step_phase_mono (s : LoopState) (inp : Input) :
    s.current_phase ≤ ((step s inp).1).current_phase := by
  rcases step_phase_cases s inp with h | h <;> omega

lemma stateAt_phase_mono (s0 : LoopState) (ins : ℕ → Input) (m n : ℕ) (h : m ≤ n) :
    (stateAt s0 ins m).current_phase ≤ (stateAt s0 ins n).current_phase := by
  induction h with
  | refl => exact le_rfl
  | step h ih =>
      exact le_trans ih (step_phase_mono _ _)

lemma cmdStep_ps_of_mode (s : LoopState) (inp : Input)
    (hm : inp.st.mode = "OFFBOARD") :
    ((cmdStep s inp).1).phase_start_time = s.phase_start_time := by
  unfold cmdStep
  split_ifs <;> simp_all

lemma phaseStep_ps_nontakeoff (s : LoopState) (inp : Input)
    (h : s.current_phase ≠ PHASE_TAKEOFF) :
    ((phaseStep s inp).1).phase_start_time = s.phase_start_time := by
  unfold phaseStep
  split_ifs <;> simp_all

/-! ## Phase-specific behaviour of `phaseStep` -/

lemma phaseStep_takeoff_done (s : LoopState) (inp : Input)
    (ha : inp.st.armed = true) (hm : inp.st.mode = "OFFBOARD")
    (hph : s.current_phase = PHASE_TAKEOFF)
    (ht : inp.now - s.phase_start_time ≥ 15.0) :
    phaseStep s inp =
      ({ s with pose := ⟨0.0, 0.0, TAKEOFF_Z⟩,
                current_phase := PHASE_FIGURE8,
                phase_start_time := inp.now }, false) := by
  simp [phaseStep, ha, hm, hph, ht]

lemma phaseStep_takeoff_go (s : LoopState) (inp : Input)
    (ha : inp.st.armed = true) (hm : inp.st.mode = "OFFBOARD")
    (hph : s.current_phase = PHASE_TAKEOFF)
    (ht : ¬ inp.now - s.phase_start_time ≥ 15.0) :
    phaseStep s inp = ({ s with pose := ⟨0.0, 0.0, TAKEOFF_Z⟩ }, false) := by
  simp [phaseStep, ha, hm, hph, ht]

lemma phaseStep_figure8_done (s : LoopState) (inp : Input)
    (ha : inp.st.armed = true) (hm : inp.st.mode = "OFFBOARD")
    (hph : s.current_phase = PHASE_FIGURE8)
    (ht : inp.now - s.phase_start_time ≥ required_figure8_duration) :
    phaseStep s inp =
      ({ s with pose := ⟨0.0, 0.0, TAKEOFF_Z⟩,
                current_phase := PHASE_LAND }, false) := by
  simp [phaseStep, ha, hm, hph, ht, PHASE_TAKEOFF, PHASE_FIGURE8]

lemma phaseStep_figure8_go (s : LoopState) (inp : Input)
    (ha : inp.st.armed = true) (hm : inp.st.mode = "OFFBOARD")
    (hph : s.current_phase = PHASE_FIGURE8)
    (ht : ¬ inp.now - s.phase_start_time ≥ required_figure8_duration) :
    phaseStep s inp =
      ({ s with pose :=
          ⟨RADIUS * Real.sin (ANGULAR_SPEED * (inp.now - s.phase_start_time)),
           RADIUS * Real.sin (ANGULAR_SPEED * (inp.now - s.phase_start_time)) *
             Real.cos (ANGULAR_SPEED * (inp.now - s.phase_start_time)),
           TAKEOFF_Z⟩ }, false) := by
  simp [phaseStep, ha, hm, hph, ht, PHASE_TAKEOFF, PHASE_FIGURE8]

lemma phaseStep_land_case (s : LoopState) (inp : Input)
    (ha : inp.st.armed = true) (hm : inp.st.mode = "OFFBOARD")
    (hph : s.current_phase = PHASE_LAND) :
    phaseStep s inp = ({ s with current_phase := PHASE_COMPLETE }, true) := by
  simp [phaseStep, ha, hm, hph, PHASE_TAKEOFF, PHASE_FIGURE8, PHASE_LAND]

/-! ## Command-arbitration lemmas -/

lemma cmdStep_req_gap (s : LoopState) (inp : Input)
    (h : (cmdStep s inp).2.1 = true ∨ (cmdStep s inp).2.2 = true) :
    inp.now - s.last_request > 5.0 := by
  unfold cmdStep at h
  split_ifs at h with h1 h2 h3
  · exact h1.2
  · exact h1.2
  · exact h3.2
  · simp at h

lemma cmdStep_req_lr (s : LoopState) (inp : Input)
    (h : (cmdStep s inp).2.1 = true ∨ (cmdStep s inp).2.2 = true) :
    ((cmdStep s inp).1).last_request = inp.now := by
  unfold cmdStep at h ⊢
  split_ifs at h ⊢ <;> simp_all

lemma cmdStep_noreq_lr (s : LoopState) (inp : Input)
    (h : ¬((cmdStep s inp).2.1 = true ∨ (cmdStep s inp).2.2 = true)) :
    ((cmdStep s inp).1).last_request = s.last_request := by
  unfold cmdStep at h ⊢
  split_ifs at h ⊢ <;> simp_all

lemma step_lr_req (s : LoopState) (inp : Input)
    (h : cmdReq (step s inp).2) :
    ((step s inp).1).last_request = inp.now ∧ inp.now - s.last_request > 5.0 := by
  have h' : (cmdStep s inp).2.1 = true ∨ (cmdStep s inp).2.2 = true := h
  constructor
  · show ((phaseStep (cmdStep s inp).1 inp).1).last_request = inp.now
    rw [phaseStep_lr]
    exact cmdStep_req_lr s inp h'
  · exact cmdStep_req_gap s inp h'

lemma step_lr_noreq (s : LoopState) (inp : Input)
    (h : ¬ cmdReq (step s inp).2) :
    ((step s inp).1).last_request = s.last_request := by
  have h' : ¬((cmdStep s inp).2.1 = true ∨ (cmdStep s inp).2.2 = true) := h
  show ((phaseStep (cmdStep s inp).1 inp).1).last_request = s.last_request
  rw [phaseStep_lr]
  exact cmdStep_noreq_lr s inp h'

lemma offboard_req_iff (s : LoopState) (inp : Input) :
    (step s inp).2.offboard_req = true ↔
      (inp.st.mode ≠ "OFFBOARD" ∧ inp.now - s.last_request > 5.0) := by
  show (cmdStep s inp).2.1 = true ↔ _
  unfold cmdStep
  split_ifs with h1 h2 <;> simp_all

lemma arm_req_iff (s : LoopState) (inp : Input) :
    (step s inp).2.arm_req = true ↔
      (¬(inp.st.mode ≠ "OFFBOARD" ∧ inp.now - s.last_request > 5.0) ∧
        inp.st.armed = false ∧ inp.now - s.last_request > 5.0) := by
  show (cmdStep s inp).2.2 = true ↔ _
  unfold cmdStep
  split_ifs with h1 h2 <;> simp_all

lemma phaseStep_land_iff (s : LoopState) (inp : Input) :
    (phaseStep s inp).2 = true ↔
      (inp.st.armed = true ∧ inp.st.mode = "OFFBOARD" ∧
        s.current_phase = PHASE_LAND) := by
  unfold phaseStep
  split_ifs <;>
    simp_all [PHASE_TAKEOFF, PHASE_FIGURE8, PHASE_LAND, PHASE_COMPLETE]

lemma land_req_iff (s : LoopState) (inp : Input) :
    (step s inp).2.land_req = true ↔
      (inp.st.armed = true ∧ inp.st.mode = "OFFBOARD" ∧
        s.current_phase = PHASE_LAND) := by
  have h := phaseStep_land_iff (cmdStep s inp).1 inp
  rw [cmdStep_phase] at h
  exact h

/-! ## Arithmetic helpers -/

lemma step_eq (s : LoopState) (inp : Input) :
    step s inp =
      ((phaseStep (cmdStep s inp).1 inp).1,
       { offboard_req := (cmdStep s inp).2.1,
         arm_req := (cmdStep s inp).2.2,
         land_req := (phaseStep (cmdStep s inp).1 inp).2,
         published :=
           decide (((phaseStep (cmdStep s inp).1 inp).1).current_phase < PHASE_LAND) }) :=
  rfl

lemma required_duration_gt : (20.94 : ℝ) < required_figure8_duration := by
  unfold required_figure8_duration ANGULAR_SPEED
  rw [lt_div_iff₀ (by norm_num : (0:ℝ) < 0.3)]
  nlinarith [Real.pi_gt_d6]

lemma required_duration_lt : required_figure8_duration < (20.95 : ℝ) := by
  unfold required_figure8_duration ANGULAR_SPEED
  rw [div_lt_iff₀ (by norm_num : (0:ℝ) < 0.3)]
  nlinarith [Real.pi_lt_d6]

lemma gerono_x_bound (θ : ℝ) : |RADIUS * Real.sin θ| ≤ RADIUS := by
  rw [abs_mul]
  unfold RADIUS
  nlinarith [Real.abs_sin_le_one θ, abs_nonneg (Real.sin θ),
    abs_of_nonneg (by norm_num : (0:ℝ) ≤ 15.0)]

lemma gerono_y_bound (θ : ℝ) : |RADIUS * Real.sin θ * Real.cos θ| ≤ RADIUS / 2 := by
  have h : RADIUS * Real.sin θ * Real.cos θ = RADIUS / 2 * Real.sin (2 * θ) := by
    rw [Real.sin_two_mul]; ring
  rw [h, abs_mul]
  unfold RADIUS
  nlinarith [Real.abs_sin_le_one (2 * θ), abs_nonneg (Real.sin (2 * θ)),
    abs_of_nonneg (by norm_num : (0:ℝ) ≤ 15.0 / 2)]

/-! ## Concrete states and inputs used by witnesses and counterexamples -/

/-- A loop state sitting in the Figure8 phase with phase timer started at 0. -/
def c1s : LoopState := ⟨⟨0, 0, 6⟩, PHASE_FIGURE8, 0, 0⟩

/-- An armed, OFFBOARD-mode telemetry snapshot at time 30 s. -/
def c1i : Input := ⟨⟨true, true, "OFFBOARD"⟩, 30, false, false, false⟩

def c2s : LoopState := ⟨⟨0, 0, 6⟩, PHASE_FIGURE8, 0, 0⟩

def c2i : Input := ⟨⟨true, true, "OFFBOARD"⟩, 30, false, false, false⟩

/-- A state whose `last_request` is long past, used to exercise a successful
offboard-mode activation. -/
def c2as : LoopState := ⟨⟨0, 0, 6⟩, PHASE_TAKEOFF, 99, 0⟩

def c2ai : Input := ⟨⟨true, false, "GUIDED"⟩, 10, true, false, false⟩

def c2bs : LoopState := ⟨⟨0, 0, 6⟩, PHASE_FIGURE8, 7, 0⟩

def c2bi : Input := ⟨⟨true, true, "OFFBOARD"⟩, 8, false, false, false⟩

def c6s : LoopState := ⟨⟨0, 0, 6⟩, PHASE_FIGURE8, 0, 0⟩

/-- Figure8-phase snapshot 5 seconds into the phase. -/
def c6i : Input := ⟨⟨true, true, "OFFBOARD"⟩, 5, false, false, false⟩

def c7s : LoopState := ⟨⟨0, 0, 6⟩, PHASE_FIGURE8, 0, 0⟩

def c7i : Input := ⟨⟨true, true, "OFFBOARD"⟩, 0, false, false, false⟩

/-! ## C1 -/

/-- C1: in an iteration that starts in the Figure8 phase with the vehicle
armed and in OFFBOARD mode, the phase transitions to Land exactly when the
time in phase reaches `required_figure8_duration = 2π/ANGULAR_SPEED`
(≈ 20.944 s: the duration lies strictly between 20.94 and 20.95); at that
transition the target is reset to x = 0, y = 0 with z = TAKEOFF_Z, and the
transition iteration itself publishes nothing (the publish gate already sees
the Land phase), so the reset happens before any later published point. -/
theorem figure8_to_land_transition (s : LoopState) (inp : Input)
    (hph : s.current_phase = PHASE_FIGURE8)
    (ha : inp.st.armed = true) (hm : inp.st.mode = "OFFBOARD") :
    (((step s inp).1).current_phase = PHASE_LAND ↔
      inp.now - s.phase_start_time ≥ required_figure8_duration) ∧
    (inp.now - s.phase_start_time ≥ required_figure8_duration →
      ((step s inp).1).pose = ⟨0.0, 0.0, TAKEOFF_Z⟩ ∧
      (step s inp).2.published = false) ∧
    20.94 < required_figure8_duration ∧ required_figure8_duration < 20.95 := by
  have hc := cmdStep_inactive s inp hm ha
  by_cases ht : inp.now - s.phase_start_time ≥ required_figure8_duration
  · have hp := phaseStep_figure8_done s inp ha hm hph ht
    refine ⟨?_, fun _ => ⟨?_, ?_⟩, required_duration_gt, required_duration_lt⟩
    · simp [step_eq, hc, hp, ht]
    · simp [step_eq, hc, hp]
    · simp [step_eq, hc, hp, PHASE_LAND]
  · have hp := phaseStep_figure8_go s inp ha hm hph ht
    refine ⟨?_, fun h => absurd h ht, required_duration_gt, required_duration_lt⟩
    simp [step_eq, hc, hp, ht, hph, PHASE_FIGURE8, PHASE_LAND]

/-- Witness for C1 at the concrete Figure8 state `c1s` and input `c1i`
(time in phase 30 s ≥ one loop duration). -/
theorem figure8_to_land_transition_witness :
    (((step c1s c1i).1).current_phase = PHASE_LAND ↔
      c1i.now - c1s.phase_start_time ≥ required_figure8_duration) ∧
    (c1i.now - c1s.phase_start_time ≥ required_figure8_duration →
      ((step c1s c1i).1).pose = ⟨0.0, 0.0, TAKEOFF_Z⟩ ∧
      (step c1s c1i).2.published = false) ∧
    20.94 < required_figure8_duration ∧ required_figure8_duration < 20.95 :=
  figure8_to_land_transition c1s c1i rfl rfl rfl

/-! ## C2 -/

/-- C2 counterexample: in the concrete Figure8 state `c2s` (phase timer
started at time 0, `last_request` 0) with input `c2i` (armed, OFFBOARD, time
30 s), the iteration takes the Figure8-to-Land transition, yet
`phase_start_time` keeps its old value 0 instead of being reset to the
current time 30: the code does not reset the phase timer on this
transition, contradicting the claim. -/
theorem phase_start_reset_cex :
    c2s.current_phase = PHASE_FIGURE8 ∧
    ((step c2s c2i).1).current_phase = PHASE_LAND ∧
    ((step c2s c2i).1).phase_start_time = 0 ∧
    c2i.now = 30 ∧ (0 : ℝ) ≠ 30 := by
  have hc := cmdStep_inactive c2s c2i rfl rfl
  have ht : c2i.now - c2s.phase_start_time ≥ required_figure8_duration := by
    show (30 : ℝ) - 0 ≥ required_figure8_duration
    have := required_duration_lt
    linarith
  have hp := phaseStep_figure8_done c2s c2i rfl rfl rfl ht
  refine ⟨rfl, ?_, ?_, rfl, by norm_num⟩
  · simp [step_eq, hc, hp]
  · have h0 : c2s.phase_start_time = 0 := rfl
    simp [step_eq, hc, hp, h0]

/-- C2 amended: `phase_start_time` is reset to the current time on every
successful offboard-mode activation and on the Takeoff-to-Figure8
transition; the Figure8-to-Land and Land-to-Complete transitions leave it
unchanged. -/
theorem phase_start_reset_amended (s : LoopState) (inp : Input) :
    (inp.st.mode ≠ "OFFBOARD" → inp.now - s.last_request > 5.0 →
      inp.offboard_ok = true →
      ((step s inp).1).phase_start_time = inp.now) ∧
    (inp.st.armed = true → inp.st.mode = "OFFBOARD" →
      s.current_phase = PHASE_TAKEOFF →
      inp.now - s.phase_start_time ≥ 15.0 →
      ((step s inp).1).phase_start_time = inp.now) ∧
    (inp.st.mode = "OFFBOARD" → s.current_phase = PHASE_FIGURE8 →
      ((step s inp).1).phase_start_time = s.phase_start_time) ∧
    (inp.st.mode = "OFFBOARD" → s.current_phase = PHASE_LAND →
      ((step s inp).1).phase_start_time = s.phase_start_time) := by
  refine ⟨?_, ?_, ?_, ?_⟩
  · intro hm hgap hok
    have hc : cmdStep s inp =
        ({ s with phase_start_time := inp.now, last_request := inp.now },
         true, false) := by
      simp [cmdStep, hm, hgap, hok]
    have hp := phaseStep_inactive
      { s with phase_start_time := inp.now, last_request := inp.now } inp
      (fun hand => hm hand.2)
    simp [step_eq, hc, hp]
  · intro ha hm hph ht
    have hc := cmdStep_inactive s inp hm ha
    have hp := phaseStep_takeoff_done s inp ha hm hph ht
    simp [step_eq, hc, hp]
  · intro hm hph
    have h1 : ((cmdStep s inp).1).phase_start_time = s.phase_start_time :=
      cmdStep_ps_of_mode s inp hm
    have h2 : ((phaseStep (cmdStep s inp).1 inp).1).phase_start_time =
        ((cmdStep s inp).1).phase_start_time := by
      apply phaseStep_ps_nontakeoff
      rw [cmdStep_phase, hph]
      decide
    show ((phaseStep (cmdStep s inp).1 inp).1).phase_start_time = s.phase_start_time
    rw [h2, h1]
  · intro hm hph
    have h1 : ((cmdStep s inp).1).phase_start_time = s.phase_start_time :=
      cmdStep_ps_of_mode s inp hm
    have h2 : ((phaseStep (cmdStep s inp).1 inp).1).phase_start_time =
        ((cmdStep s inp).1).phase_start_time := by
      apply phaseStep_ps_nontakeoff
      rw [cmdStep_phase, hph]
      decide
    show ((phaseStep (cmdStep s inp).1 inp).1).phase_start_time = s.phase_start_time
    rw [h2, h1]

/-- Witness for the amended C2: a successful offboard activation at time
10 s resets the phase timer to 10, and a Figure8 iteration in OFFBOARD mode
leaves the phase timer (7) unchanged. -/
theorem phase_start_reset_amended_witness :
    ((step c2as c2ai).1).phase_start_time = c2ai.now ∧
    ((step c2bs c2bi).1).phase_start_time = c2bs.phase_start_time :=
  ⟨(phase_start_reset_amended c2as c2ai).1 (by decide)
      (by show (10:ℝ) - 0 > 5.0; norm_num) rfl,
   (phase_start_reset_amended c2bs c2bi).2.2.1 rfl rfl⟩

/-! ## C6 -/

/-- C6: in a Figure8-phase iteration (armed, OFFBOARD mode) with time in
phase `t` below the loop duration, the iteration sets and publishes the
target pose (RADIUS·sin(ANGULAR_SPEED·t),
RADIUS·sin(ANGULAR_SPEED·t)·cos(ANGULAR_SPEED·t), TAKEOFF_Z). -/
theorem figure8_pose_formula (s : LoopState) (inp : Input)
    (hph : s.current_phase = PHASE_FIGURE8)
    (ha : inp.st.armed = true) (hm : inp.st.mode = "OFFBOARD")
    (ht : inp.now - s.phase_start_time < required_figure8_duration) :
    ((step s inp).1).pose =
      ⟨RADIUS * Real.sin (ANGULAR_SPEED * (inp.now - s.phase_start_time)),
       RADIUS * Real.sin (ANGULAR_SPEED * (inp.now - s.phase_start_time)) *
         Real.cos (ANGULAR_SPEED * (inp.now - s.phase_start_time)),
       TAKEOFF_Z⟩ ∧
    (step s inp).2.published = true := by
  have hc := cmdStep_inactive s inp hm ha
  have ht' : ¬ inp.now - s.phase_start_time ≥ required_figure8_duration :=
    not_le.mpr ht
  have hp := phaseStep_figure8_go s inp ha hm hph ht'
  constructor
  · simp [step_eq, hc, hp]
  · simp [step_eq, hc, hp, hph, PHASE_FIGURE8, PHASE_LAND]

/-- Witness for C6 at phase-time t = 5 s: the angle is
ANGULAR_SPEED·t = 1.5 rad, and the published pose is exactly
(15·sin 1.5, 15·sin 1.5·cos 1.5, 6), hence within any positive tolerance
(in particular 1e-6) of that value. -/
theorem figure8_pose_formula_witness :
    (((step c6s c6i).1).pose =
      ⟨RADIUS * Real.sin (ANGULAR_SPEED * (c6i.now - c6s.phase_start_time)),
       RADIUS * Real.sin (ANGULAR_SPEED * (c6i.now - c6s.phase_start_time)) *
         Real.cos (ANGULAR_SPEED * (c6i.now - c6s.phase_start_time)),
       TAKEOFF_Z⟩ ∧
     (step c6s c6i).2.published = true) ∧
    ANGULAR_SPEED * (c6i.now - c6s.phase_start_time) = 1.5 ∧
    RADIUS = 15 ∧ TAKEOFF_Z = 6 ∧
    |RADIUS * Real.sin (ANGULAR_SPEED * (c6i.now - c6s.phase_start_time)) -
      15 * Real.sin 1.5| < 1e-6 :=
  ⟨figure8_pose_formula c6s c6i rfl rfl rfl
      (by
        show (5 : ℝ) - 0 < required_figure8_duration
        have := required_duration_gt
        linarith),
   by show ANGULAR_SPEED * ((5:ℝ) - 0) = 1.5; norm_num [ANGULAR_SPEED],
   by norm_num [RADIUS],
   by norm_num [TAKEOFF_Z],
   by
    have h : ANGULAR_SPEED * (c6i.now - c6s.phase_start_time) = 1.5 := by
      show ANGULAR_SPEED * ((5:ℝ) - 0) = 1.5
      norm_num [ANGULAR_SPEED]
    rw [h]
    norm_num [RADIUS]⟩

/-! ## C7 -/

/-- C7: for every Figure8-phase iteration with time in phase in
[0, required_figure8_duration], the target (x, y) set by the iteration lies
in the box [-RADIUS, RADIUS] × [-RADIUS/2, RADIUS/2]; moreover for every
angle θ, |RADIUS·sin θ| ≤ RADIUS and |RADIUS·sin θ·cos θ| ≤ RADIUS/2. -/
theorem figure8_bounding_box (s : LoopState) (inp : Input)
    (hph : s.current_phase = PHASE_FIGURE8)
    (ha : inp.st.armed = true) (hm : inp.st.mode = "OFFBOARD")
    (h0 : 0 ≤ inp.now - s.phase_start_time)
    (h1 : inp.now - s.phase_start_time ≤ required_figure8_duration) :
    (|((step s inp).1).pose.x| ≤ RADIUS ∧
     |((step s inp).1).pose.y| ≤ RADIUS / 2) ∧
    ∀ θ : ℝ, |RADIUS * Real.sin θ| ≤ RADIUS ∧
      |RADIUS * Real.sin θ * Real.cos θ| ≤ RADIUS / 2 := by
  refine ⟨?_, fun θ => ⟨gerono_x_bound θ, gerono_y_bound θ⟩⟩
  have hc := cmdStep_inactive s inp hm ha
  by_cases ht : inp.now - s.phase_start_time ≥ required_figure8_duration
  · have hp := phaseStep_figure8_done s inp ha hm hph ht
    constructor
    · have hx : ((step s inp).1).pose.x = 0.0 := by simp [step_eq, hc, hp]
      rw [hx]
      unfold RADIUS
      norm_num
    · have hy : ((step s inp).1).pose.y = 0.0 := by simp [step_eq, hc, hp]
      rw [hy]
      unfold RADIUS
      norm_num
  · have hp := phaseStep_figure8_go s inp ha hm hph ht
    constructor
    · have hx : ((step s inp).1).pose.x =
          RADIUS * Real.sin (ANGULAR_SPEED * (inp.now - s.phase_start_time)) := by
        simp [step_eq, hc, hp]
      rw [hx]
      exact gerono_x_bound _
    · have hy : ((step s inp).1).pose.y =
          RADIUS * Real.sin (ANGULAR_SPEED * (inp.now - s.phase_start_time)) *
            Real.cos (ANGULAR_SPEED * (inp.now - s.phase_start_time)) := by
        simp [step_eq, hc, hp]
      rw [hy]
      exact gerono_y_bound _

/-- Witness for C7 at phase-time t = 0 in state `c7s` with input `c7i`. -/
theorem figure8_bounding_box_witness :
    (|((step c7s c7i).1).pose.x| ≤ RADIUS ∧
     |((step c7s c7i).1).pose.y| ≤ RADIUS / 2) ∧
    ∀ θ : ℝ, |RADIUS * Real.sin θ| ≤ RADIUS ∧
      |RADIUS * Real.sin θ * Real.cos θ| ≤ RADIUS / 2 :=
  figure8_bounding_box c7s c7i rfl rfl rfl
    (by show (0:ℝ) ≤ 0 - 0; norm_num)
    (by
      show (0:ℝ) - 0 ≤ required_figure8_duration
      have := required_duration_gt
      linarith)

/-! ## C3 -/

/-- Constant all-OFFBOARD input trace used by the C3 witness. -/
def c3ins : ℕ → Input := fun _ => ⟨⟨true, true, "OFFBOARD"⟩, 0, false, false, false⟩

/-- C3: every run started in the initial state begins in the Takeoff phase,
each iteration either keeps the phase or advances it by exactly one (so no
phase is skipped and none is re-entered), and the phase value is monotone
along the whole run. -/
theorem phase_monotone (t0 : ℝ) (ins : ℕ → Input) :
    (stateAt (initState t0) ins 0).current_phase = PHASE_TAKEOFF ∧
    (∀ n, (stateAt (initState t0) ins (n + 1)).current_phase =
            (stateAt (initState t0) ins n).current_phase ∨
          (stateAt (initState t0) ins (n + 1)).current_phase =
            (stateAt (initState t0) ins n).current_phase + 1) ∧
    (∀ m n, m ≤ n →
      (stateAt (initState t0) ins m).current_phase ≤
        (stateAt (initState t0) ins n).current_phase) := by
  refine ⟨rfl, fun n => ?_, fun m n h => stateAt_phase_mono _ _ m n h⟩
  exact step_phase_cases _ _

/-- Witness for C3: on the concrete trace `c3ins` from `initState 0`, the
phase at iteration 0 is not above the phase at iteration 2. -/
theorem phase_monotone_witness :
    (stateAt (initState 0) c3ins 0).current_phase ≤
      (stateAt (initState 0) c3ins 2).current_phase :=
  (phase_monotone 0 c3ins).2.2 0 2 (by norm_num)

/-! ## C4 -/

def c4s : LoopState := ⟨⟨0, 0, 6⟩, PHASE_LAND, 0, 0⟩

def c4ins : ℕ → Input := fun _ => ⟨⟨true, true, "OFFBOARD"⟩, 0, false, false, false⟩

/-- C4: in every iteration, the setpoint is published exactly when the phase
value the iteration's publish gate sees (the phase already updated by this
iteration's phase logic, i.e. the phase at the start of the next iteration)
is strictly before Land; and once any iteration starts at phase Land or
later, no later iteration ever publishes. -/
theorem publish_iff_before_land (s0 : LoopState) (ins : ℕ → Input) :
    (∀ n, ((outAt s0 ins n).published = true ↔
      (stateAt s0 ins (n + 1)).current_phase < PHASE_LAND)) ∧
    (∀ m n, m ≤ n → PHASE_LAND ≤ (stateAt s0 ins m).current_phase →
      (outAt s0 ins n).published = false) := by
  have key : ∀ n, (outAt s0 ins n).published = true ↔
      (stateAt s0 ins (n + 1)).current_phase < PHASE_LAND := by
    intro n
    show decide (((phaseStep (cmdStep (stateAt s0 ins n) (ins n)).1 (ins n)).1).current_phase
        < PHASE_LAND) = true ↔ _
    rw [decide_eq_true_iff]
    exact Iff.rfl
  refine ⟨key, fun m n h hm => ?_⟩
  have h1 : PHASE_LAND ≤ (stateAt s0 ins (n + 1)).current_phase :=
    le_trans hm (stateAt_phase_mono s0 ins m (n + 1) (by omega))
  have h2 : ¬ (stateAt s0 ins (n + 1)).current_phase < PHASE_LAND := by omega
  rw [← Bool.not_eq_true, key n]
  exact h2

/-- Witness for C4: starting in the Land phase (`c4s`), iteration 1 of the
concrete trace `c4ins` publishes nothing. -/
theorem publish_iff_before_land_witness :
    (outAt c4s c4ins 1).published = false :=
  (publish_iff_before_land c4s c4ins).2 0 1 (by norm_num) (by exact le_rfl)

/-! ## C5 -/

def c5s : LoopState := ⟨⟨0, 0, 6⟩, PHASE_TAKEOFF, 0, 0⟩

/-- A trace of non-OFFBOARD snapshots arriving every 6 seconds, so that the
5-second cooldown has always elapsed. -/
def c5ins : ℕ → Input :=
  fun n => ⟨⟨true, false, "GUIDED"⟩, 6 * ((n : ℝ) + 1), false, false, false⟩

/-- C5: in every iteration at most one of the OFFBOARD mode-change and arm
requests is issued — the mode request only when the mode is not OFFBOARD,
the arm request only in the other branch when not armed — every issued
request comes more than 5 s after the stored `last_request` time, and any
two consecutive command attempts of a run are more than 5 s apart,
regardless of loop cadence and of whether the earlier attempt succeeded. -/
theorem command_throttle (s0 : LoopState) (ins : ℕ → Input) :
    (∀ n, ¬((outAt s0 ins n).offboard_req = true ∧
            (outAt s0 ins n).arm_req = true)) ∧
    (∀ n, (outAt s0 ins n).offboard_req = true → (ins n).st.mode ≠ "OFFBOARD") ∧
    (∀ n, (outAt s0 ins n).arm_req = true → (ins n).st.armed = false) ∧
    (∀ n, cmdReq (outAt s0 ins n) →
      (ins n).now - (stateAt s0 ins n).last_request > 5.0) ∧
    (∀ i j, i < j → cmdReq (outAt s0 ins i) → cmdReq (outAt s0 ins j) →
      (∀ k, i < k → k < j → ¬ cmdReq (outAt s0 ins k)) →
      (ins j).now - (ins i).now > 5.0) := by
  refine ⟨fun n => ?_, fun n h => ?_, fun n h => ?_, fun n h => ?_,
    fun i j hij hci hcj hmid => ?_⟩
  · rintro ⟨hA, hB⟩
    exact ((arm_req_iff _ _).mp hB).1 ((offboard_req_iff _ _).mp hA)
  · exact ((offboard_req_iff _ _).mp h).1
  · exact ((arm_req_iff _ _).mp h).2.1
  · exact (step_lr_req _ _ h).2
  · have hlr : ∀ k, i < k → k ≤ j → (stateAt s0 ins k).last_request = (ins i).now := by
      intro k
      induction k with
      | zero => omega
      | succ k ih =>
          intro hk1 hk2
          by_cases hk : i = k
          · subst hk
            exact (step_lr_req _ _ hci).1
          · have hk1' : i < k := by omega
            have hnc : ¬ cmdReq (outAt s0 ins k) := hmid k hk1' (by omega)
            have hkeep := step_lr_noreq (stateAt s0 ins k) (ins k) hnc
            show ((step (stateAt s0 ins k) (ins k)).1).last_request = (ins i).now
            rw [hkeep]
            exact ih hk1' (by omega)
    have hgap := (step_lr_req _ _ hcj).2
    rw [hlr j hij le_rfl] at hgap
    exact hgap

/-- Witness for C5 on the concrete trace `c5ins` from state `c5s`: command
attempts are issued at iterations 0 and 1 (times 6 s and 12 s), and they are
more than 5 s apart. -/
theorem command_throttle_witness :
    (c5ins 1).now - (c5ins 0).now > 5.0 := by
  have h0 : cmdReq (outAt c5s c5ins 0) := by
    left
    rw [show outAt c5s c5ins 0 = (step c5s (c5ins 0)).2 from rfl, offboard_req_iff]
    refine ⟨by decide, ?_⟩
    norm_num [c5ins, c5s]
  have h1 : cmdReq (outAt c5s c5ins 1) := by
    left
    rw [show outAt c5s c5ins 1 = (step (stateAt c5s c5ins 1) (c5ins 1)).2 from rfl,
      offboard_req_iff]
    refine ⟨by decide, ?_⟩
    have hlr := (step_lr_req c5s (c5ins 0) h0).1
    rw [show stateAt c5s c5ins 1 = (step c5s (c5ins 0)).1 from rfl, hlr]
    norm_num [c5ins]
  exact (command_throttle c5s c5ins).2.2.2.2 0 1 (by norm_num) h0 h1
    (fun k hk1 hk2 => by omega)

/-! ## C8 -/

lemma step_connected_irrelevant (s : LoopState) (i j : Input)
    (h : agreeNonConnected i j) : step s i = step s j := by
  obtain ⟨⟨ci, ai, mi⟩, ni, o1, o2, o3⟩ := i
  obtain ⟨⟨cj, aj, mj⟩, nj, p1, p2, p3⟩ := j
  obtain ⟨h1, h2, h3, h4, h5, h6⟩ := h
  have e1 : ai = aj := h1
  have e2 : mi = mj := h2
  have e3 : ni = nj := h3
  have e4 : o1 = p1 := h4
  have e5 : o2 = p2 := h5
  have e6 : o3 = p3 := h6
  subst e1; subst e2; subst e3; subst e4; subst e5; subst e6
  rfl

def c8s : LoopState := initState 0

def c8insA : ℕ → Input := fun _ => ⟨⟨true, true, "OFFBOARD"⟩, 0, false, false, false⟩

/-- Same trace as `c8insA` but with the `connected` flag cleared. -/
def c8insB : ℕ → Input := fun _ => ⟨⟨false, true, "OFFBOARD"⟩, 0, false, false, false⟩

/-- C8: the loop body never reads the `connected` flag — two runs from the
same start state whose inputs agree on everything except `connected`
go through identical states and produce identical outputs (requests and
publications) at every iteration. -/
theorem connected_noninterference (s0 : LoopState) (ins ins' : ℕ → Input)
    (h : ∀ n, agreeNonConnected (ins n) (ins' n)) :
    ∀ n, stateAt s0 ins n = stateAt s0 ins' n ∧
      outAt s0 ins n = outAt s0 ins' n := by
  have hst : ∀ n, stateAt s0 ins n = stateAt s0 ins' n := by
    intro n
    induction n with
    | zero => rfl
    | succ n ih =>
        show (step (stateAt s0 ins n) (ins n)).1 = (step (stateAt s0 ins' n) (ins' n)).1
        rw [ih, step_connected_irrelevant (stateAt s0 ins' n) (ins n) (ins' n) (h n)]
  intro n
  refine ⟨hst n, ?_⟩
  show (step (stateAt s0 ins n) (ins n)).2 = (step (stateAt s0 ins' n) (ins' n)).2
  rw [hst n, step_connected_irrelevant (stateAt s0 ins' n) (ins n) (ins' n) (h n)]

/-- Witness for C8: the traces `c8insA` and `c8insB` differ only in
`connected`, and after 2 iterations from `c8s` the states and outputs
coincide. -/
theorem connected_noninterference_witness :
    stateAt c8s c8insA 2 = stateAt c8s c8insB 2 ∧
      outAt c8s c8insA 2 = outAt c8s c8insB 2 :=
  connected_noninterference c8s c8insA c8insB
    (fun _ => ⟨rfl, rfl, rfl, rfl, rfl, rfl⟩) 2

/-! ## C9 -/

def c9s : LoopState := ⟨⟨0, 0, 6⟩, PHASE_LAND, 0, 0⟩

def c9i : Input := ⟨⟨true, true, "OFFBOARD"⟩, 0, false, false, false⟩

/-- C9: every iteration issues at most one external service request in
total; in particular the one-shot AUTO.LAND request (which requires the
armed, OFFBOARD-mode snapshot that reaches the phase logic) can never
coincide with the OFFBOARD mode-change request (which requires a
non-OFFBOARD mode) or the arm request (which requires an unarmed
snapshot). -/
theorem at_most_one_service_call (s : LoopState) (inp : Input) :
    ((if (step s inp).2.offboard_req = true then 1 else 0) +
     (if (step s inp).2.arm_req = true then 1 else 0) +
     (if (step s inp).2.land_req = true then 1 else 0) : ℕ) ≤ 1 ∧
    ((step s inp).2.land_req = true →
      (step s inp).2.offboard_req = false ∧ (step s inp).2.arm_req = false) := by
  have hmux : ¬((step s inp).2.offboard_req = true ∧ (step s inp).2.arm_req = true) := by
    rintro ⟨hA, hB⟩
    exact ((arm_req_iff s inp).mp hB).1 ((offboard_req_iff s inp).mp hA)
  by_cases hland : (step s inp).2.land_req = true
  · obtain ⟨harm, hmode, hph⟩ := (land_req_iff s inp).mp hland
    have h1 : (step s inp).2.offboard_req = false := by
      rw [← Bool.not_eq_true, offboard_req_iff]
      intro hc
      exact hc.1 hmode
    have h2 : (step s inp).2.arm_req = false := by
      rw [← Bool.not_eq_true, arm_req_iff]
      intro hc
      rw [harm] at hc
      exact absurd hc.2.1 (by simp)
    refine ⟨?_, fun _ => ⟨h1, h2⟩⟩
    simp [h1, h2, hland]
  · have hl' : (step s inp).2.land_req = false := by
      rw [← Bool.not_eq_true]; exact hland
    refine ⟨?_, fun hc => absurd hc hland⟩
    by_cases hA : (step s inp).2.offboard_req = true
    · have hB : (step s inp).2.arm_req = false := by
        rw [← Bool.not_eq_true]
        intro hB
        exact hmux ⟨hA, hB⟩
      simp [hA, hB, hl']
    · have hA' : (step s inp).2.offboard_req = false := by
        rw [← Bool.not_eq_true]; exact hA
      by_cases hB : (step s inp).2.arm_req = true <;> simp [hA', hB, hl']

/-- Witness for C9: in the concrete Land-phase iteration `(c9s, c9i)` the
AUTO.LAND request is issued and both throttled requests are suppressed. -/
theorem at_most_one_service_call_witness :
    (step c9s c9i).2.offboard_req = false ∧ (step c9s c9i).2.arm_req = false :=
  (at_most_one_service_call c9s c9i).2
    ((land_req_iff c9s c9i).mpr ⟨rfl, rfl, rfl⟩)

/-! ## C10 -/

def c10s : LoopState := ⟨⟨7, 8, 9⟩, PHASE_TAKEOFF, 0, 0⟩

/-- An unarmed snapshot: the phase logic is skipped this iteration. -/
def c10i : Input := ⟨⟨true, false, "OFFBOARD"⟩, 0, false, false, false⟩

/-- C10: in an iteration whose snapshot is not armed or not in OFFBOARD
mode, the target pose and the phase are left unchanged, yet the iteration
still publishes (the unchanged, possibly stale pose) exactly when the
unchanged phase is strictly before Land. -/
theorem inactive_iteration_frame (s : LoopState) (inp : Input)
    (h : ¬(inp.st.armed = true ∧ inp.st.mode = "OFFBOARD")) :
    ((step s inp).1).pose = s.pose ∧
    ((step s inp).1).current_phase = s.current_phase ∧
    ((step s inp).2.published = true ↔ s.current_phase < PHASE_LAND) := by
  have hp := phaseStep_inactive (cmdStep s inp).1 inp h
  refine ⟨?_, ?_, ?_⟩
  · show ((phaseStep (cmdStep s inp).1 inp).1).pose = s.pose
    rw [hp]
    exact cmdStep_pose s inp
  · show ((phaseStep (cmdStep s inp).1 inp).1).current_phase = s.current_phase
    rw [hp]
    exact cmdStep_phase s inp
  · show decide (((phaseStep (cmdStep s inp).1 inp).1).current_phase < PHASE_LAND)
        = true ↔ _
    rw [decide_eq_true_iff, hp, cmdStep_phase]

/-- Witness for C10: with the stale pose (7, 8, 9) in the Takeoff phase and
an unarmed snapshot, the pose and phase are unchanged and the iteration
still publishes. -/
theorem inactive_iteration_frame_witness :
    ((step c10s c10i).1).pose = c10s.pose ∧
    ((step c10s c10i).1).current_phase = c10s.current_phase ∧
    ((step c10s c10i).2.published = true ↔ c10s.current_phase < PHASE_LAND) :=
  inactive_iteration_frame c10s c10i (by decide)

end OffboardNode
